import Mathlib

/-!
Verification development for the bidirectional TTS client of the
doubao screenplay processor (`bidirection_client.py`) and its batch
drivers (`process_text_to_voice.py`, `process_more_file.py`).

The protocol orchestration of `BidirectionTTSClient.synthesize_to_file`
is embedded as a function from an environment (which fixes the outcome
of every transport operation and the inbound message stream) to a
result together with a trace of observable transport actions.

Modelling conventions:
* byte strings are `List Nat`;
* numeric prosody values (`speech_rate`, `loudness_rate`,
  `emotion_scale`) are `Int`: the client only compares them with `0`
  and passes them through to the JSON payload, and the drivers supply
  integer values, so the embedding is comparison-exact;
* `uuid.uuid4()` values are drawn from a counter threaded through the
  call: `synthesize_to_file` consumes three uuids (connect id, user
  uid, session id), so a subsequent call starts three ids later;
* a Python `try/finally` is embedded by running the body, then the
  cleanup, the overall result being the cleanup error when the cleanup
  fails and the body result otherwise (an exception raised in a
  `finally` block replaces the in-flight exception).
-/

/-- Message types of the wire protocol (`MsgType` in the protocols module). -/
inductive MsgType
  | FullClientRequest
  | FullServerResponse
  | AudioOnlyServer
  | Error
  deriving DecidableEq

/-- Event codes of the wire protocol (`EventType` in the protocols module).
`NoEvent` stands for the absent event of pure audio frames. -/
inductive EventType
  | NoEvent
  | StartConnection
  | ConnectionStarted
  | FinishConnection
  | ConnectionFinished
  | StartSession
  | SessionStarted
  | FinishSession
  | SessionFinished
  | TaskRequest
  deriving DecidableEq

/-- One inbound message as exposed by `receive_message`: type, event,
and raw payload bytes. -/
structure Msg where
  type : MsgType
  event : EventType
  payload : List Nat
  deriving DecidableEq

/-- JSON scalar values appearing in the request payloads. -/
inductive JVal
  | jstr (s : String)
  | jnum (n : Int)
  | jbool (b : Bool)
  deriving DecidableEq

/-- Header values: plain strings or uuid values drawn from the counter. -/
inductive HVal
  | str (s : String)
  | uuid (n : Nat)
  deriving DecidableEq

/-- First-match association lookup on a key list (the membership of a
JSON object key). -/
def getKey (k : String) : List (String × α) → Option α
  | [] => none
  | (k2, v) :: rest => if k = k2 then some v else getKey k rest

/-- The `audio_params` object of the base request of
`synthesize_to_file` (lines 85-89): format, sample rate, timestamp
flag. -/
def baseAudioParams (encoding : String) (sampleRate : Int) : List (String × JVal) :=
  [(("format"), JVal.jstr encoding),
   (("sample_rate"), JVal.jnum sampleRate),
   (("enable_timestamp"), JVal.jbool true)]

/-- The `audio_params` object of the outgoing `StartSession` payload
(lines 96-106): the base params with each prosody override inserted
exactly when it differs from its unset sentinel. -/
def startSessionAudioParams (encoding : String) (sampleRate speechRate loudnessRate : Int)
    (emotion : String) (emotionScale : Int) : List (String × JVal) :=
  let ap := baseAudioParams encoding sampleRate
  let ap := if speechRate ≠ 0 then ap ++ [(("speech_rate"), JVal.jnum speechRate)] else ap
  let ap := if loudnessRate ≠ 0 then ap ++ [(("loudness_rate"), JVal.jnum loudnessRate)] else ap
  let ap := if emotion ≠ ("neutral") then ap ++ [(("emotion"), JVal.jstr emotion)] else ap
  let ap := if emotionScale ≠ 0 then ap ++ [(("emotion_scale"), JVal.jnum emotionScale)] else ap
  ap

/-- Python `str.startswith`: the marker is a character prefix of the
identifier. -/
def startsWithPy (s p : String) : Bool :=
  p.data.isPrefixOf s.data

/-- `BidirectionTTSClient.get_resource_id_for_voice` (line 161). -/
def get_resource_id_for_voice (voice_type : String) : String :=
  if startsWithPy voice_type ("S_") then ("seed-icl-2.0") else ("seed-tts-2.0")

/-- The keyword parameters accepted by `synthesize_to_file`
(lines 42-53), apart from `self`. -/
def synthesize_to_file_params : List String :=
  [("text"), ("voice_type"), ("resource_id"), ("output_file"), ("encoding"),
   ("speech_rate"), ("loudness_rate"), ("emotion"), ("emotion_scale")]

/-- The keyword arguments passed by `process_text_to_voice.main`
(lines 171-182) when calling `client.synthesize_to_file`. -/
def driver_call_kwargs : List String :=
  [("text"), ("voice_type"), ("resource_id"), ("output_file"), ("encoding"),
   ("speech_rate"), ("loudness_rate"), ("emotion"), ("emotion_scale"), ("pitch_rate")]

/-- Python keyword binding: a call binds successfully exactly when
every passed keyword is an accepted parameter name (otherwise the call
raises `TypeError: unexpected keyword argument`). -/
def kwargsBind (accepted passed : List String) : Bool :=
  passed.all (fun k => accepted.contains k)

/-- Errors raised by `synthesize_to_file`. -/
inductive Err
  | ConnectFailed
  | SendFailed (op : String)
  | WaitFailed (ev : EventType)
  | ServerError (payload : List Nat)
  | NoAudioData
  | ConnectionClosed
  deriving DecidableEq

/-- Observable transport actions of one `synthesize_to_file` call. -/
inductive Act
  | connect (headers : List (String × HVal))
  | sendStartConnection
  | sendStartSession (audioParams : List (String × JVal))
  | sendTaskRequest
  | sendFinishSession
  | sendFinishConnection
  | waitEvent (mt : MsgType) (ev : EventType)
  | closeTransport
  | writeFile (path : String) (data : List Nat)
  deriving DecidableEq

/-- Environment of one call: the outcome of every transport operation
and the inbound stream consumed by the receive loop. -/
structure Env where
  connectOk : Bool
  startConnectionOk : Bool
  waitConnectionStartedOk : Bool
  startSessionOk : Bool
  waitSessionStartedOk : Bool
  taskRequestOk : Bool
  finishSessionOk : Bool
  inbound : List Msg
  finishConnectionOk : Bool
  waitConnectionFinishedOk : Bool
  closeOk : Bool
  deriving DecidableEq

/-- The receive loop of `synthesize_to_file` (lines 126-135): a
`FullServerResponse` carrying `SessionFinished` stops the loop with the
accumulated audio; an `AudioOnlyServer` payload is appended to the
accumulator; an `Error` message aborts; everything else is skipped.
An exhausted stream means the transport closed under a pending
`receive_message`. -/
def recvLoop : List Msg → List Nat → Except Err (List Nat)
  | [], _ => Except.error Err.ConnectionClosed
  | m :: rest, acc =>
    match m.type with
    | MsgType.FullServerResponse =>
      if m.event = EventType.SessionFinished then Except.ok acc else recvLoop rest acc
    | MsgType.AudioOnlyServer => recvLoop rest (acc ++ m.payload)
    | MsgType.Error => Except.error (Err.ServerError m.payload)
    | MsgType.FullClientRequest => recvLoop rest acc

/-- The connection headers of `synthesize_to_file` (lines 57-62). -/
def connectHeaders (appid accessToken resourceId : String) (seed : Nat) : List (String × HVal) :=
  [(("X-Api-App-Key"), HVal.str appid),
   (("X-Api-Access-Key"), HVal.str accessToken),
   (("X-Api-Resource-Id"), HVal.str resourceId),
   (("X-Api-Connect-Id"), HVal.uuid seed)]

/-- The uuid counter position after one `synthesize_to_file` call:
the call consumes three uuids (connect id, user uid, session id). -/
def synthNextSeed (seed : Nat) : Nat := seed + 3

/-- The body of the `try` block of `synthesize_to_file` (lines 72-145):
start connection, wait `ConnectionStarted`, start session (with the
prosody-merged payload), wait `SessionStarted`, send the task request,
finish the session, run the receive loop, check the non-empty-audio
postcondition, and write the output file. -/
def runBody (env : Env) (outputFile encoding : String)
    (sampleRate speechRate loudnessRate : Int) (emotion : String) (emotionScale : Int) :
    Except Err Unit × List Act :=
  if env.startConnectionOk = false then
    (Except.error (Err.SendFailed ("start_connection")), [])
  else if env.waitConnectionStartedOk = false then
    (Except.error (Err.WaitFailed EventType.ConnectionStarted), [Act.sendStartConnection])
  else if env.startSessionOk = false then
    (Except.error (Err.SendFailed ("start_session")),
     [Act.sendStartConnection,
      Act.waitEvent MsgType.FullServerResponse EventType.ConnectionStarted])
  else if env.waitSessionStartedOk = false then
    (Except.error (Err.WaitFailed EventType.SessionStarted),
     [Act.sendStartConnection,
      Act.waitEvent MsgType.FullServerResponse EventType.ConnectionStarted,
      Act.sendStartSession
        (startSessionAudioParams encoding sampleRate speechRate loudnessRate emotion emotionScale)])
  else if env.taskRequestOk = false then
    (Except.error (Err.SendFailed ("task_request")),
     [Act.sendStartConnection,
      Act.waitEvent MsgType.FullServerResponse EventType.ConnectionStarted,
      Act.sendStartSession
        (startSessionAudioParams encoding sampleRate speechRate loudnessRate emotion emotionScale),
      Act.waitEvent MsgType.FullServerResponse EventType.SessionStarted])
  else if env.finishSessionOk = false then
    (Except.error (Err.SendFailed ("finish_session")),
     [Act.sendStartConnection,
      Act.waitEvent MsgType.FullServerResponse EventType.ConnectionStarted,
      Act.sendStartSession
        (startSessionAudioParams encoding sampleRate speechRate loudnessRate emotion emotionScale),
      Act.waitEvent MsgType.FullServerResponse EventType.SessionStarted,
      Act.sendTaskRequest])
  else
    let pre :=
      [Act.sendStartConnection,
       Act.waitEvent MsgType.FullServerResponse EventType.ConnectionStarted,
       Act.sendStartSession
         (startSessionAudioParams encoding sampleRate speechRate loudnessRate emotion emotionScale),
       Act.waitEvent MsgType.FullServerResponse EventType.SessionStarted,
       Act.sendTaskRequest,
       Act.sendFinishSession]
    match recvLoop env.inbound [] with
    | Except.error e => (Except.error e, pre)
    | Except.ok audio =>
      if audio = [] then (Except.error Err.NoAudioData, pre)
      else (Except.ok (), pre ++ [Act.writeFile outputFile audio])

/-- The `finally` block of `synthesize_to_file` (lines 147-153): send
`FinishConnection`, wait for `ConnectionFinished`, close the transport.
There is no exception handling inside the block. -/
def runCleanup (env : Env) : Except Err Unit × List Act :=
  if env.finishConnectionOk = false then
    (Except.error (Err.SendFailed ("finish_connection")), [])
  else if env.waitConnectionFinishedOk = false then
    (Except.error (Err.WaitFailed EventType.ConnectionFinished), [Act.sendFinishConnection])
  else if env.closeOk = false then
    (Except.error (Err.SendFailed ("close")),
     [Act.sendFinishConnection,
      Act.waitEvent MsgType.FullServerResponse EventType.ConnectionFinished])
  else
    (Except.ok (),
     [Act.sendFinishConnection,
      Act.waitEvent MsgType.FullServerResponse EventType.ConnectionFinished,
      Act.closeTransport])

/-- `synthesize_to_file` (lines 42-153): connect with the four headers,
then run the `try` body followed by the `finally` cleanup. The
connection attempt precedes the `try`, so a connect failure skips the
cleanup; an error raised by the cleanup replaces the body's outcome. -/
def synthesizeRun (env : Env) (seed : Nat)
    (appid accessToken text voiceType resourceId outputFile encoding : String)
    (sampleRate speechRate loudnessRate : Int) (emotion : String) (emotionScale : Int) :
    Except Err Unit × List Act :=
  let headers := connectHeaders appid accessToken resourceId seed
  if env.connectOk = false then
    (Except.error Err.ConnectFailed, [Act.connect headers])
  else
    let body := runBody env outputFile encoding sampleRate speechRate loudnessRate emotion emotionScale
    let cleanup := runCleanup env
    ((match cleanup.1 with
      | Except.error e => Except.error e
      | Except.ok _ => body.1),
     Act.connect headers :: (body.2 ++ cleanup.2))

/-- A `FullServerResponse` control message carrying an event. -/
def ctrlMsg (ev : EventType) : Msg := ⟨MsgType.FullServerResponse, ev, []⟩

/-- An `AudioOnlyServer` frame carrying audio bytes. -/
def audioMsg (p : List Nat) : Msg := ⟨MsgType.AudioOnlyServer, EventType.NoEvent, p⟩

/-- An `Error` message carrying the server's error payload. -/
def errorMsg (p : List Nat) : Msg := ⟨MsgType.Error, EventType.NoEvent, p⟩

/-- An environment in which every transport operation succeeds. -/
def envAllOk (inbound : List Msg) : Env :=
  ⟨true, true, true, true, true, true, true, inbound, true, true, true⟩

/-- An environment in which step 2 (the wait for `ConnectionStarted`)
fails and the cleanup's `finish_connection` send also fails. -/
def envWaitFailCleanupFail : Env :=
  ⟨true, true, false, true, true, true, true, [], false, true, true⟩

/-- An environment in which the body succeeds (one audio frame, then
`SessionFinished`) but the cleanup's `finish_connection` send fails. -/
def envCleanupFail : Env :=
  ⟨true, true, true, true, true, true, true, [audioMsg [65], ctrlMsg EventType.SessionFinished],
   false, true, true⟩

/-- The inbound stream of the spec's end-to-end scenario:
`ConnectionStarted`, `SessionStarted`, three audio frames `b"A"`,
`b"B"`, `b"C"`, then `SessionFinished`. -/
def scenarioMsgs : List Msg :=
  [ctrlMsg EventType.ConnectionStarted,
   ctrlMsg EventType.SessionStarted,
   audioMsg [65],
   audioMsg [66],
   audioMsg [67],
   ctrlMsg EventType.SessionFinished]

/-- Every action in the body trace is one of the six protocol steps or
a file write; a file write only happens with the call's output path,
non-empty audio, and a successful body. -/
theorem mem_runBody_trace (env : Env) (outputFile encoding : String)
    (sampleRate speechRate loudnessRate : Int) (emotion : String) (emotionScale : Int)
    (a : Act)
    (ha : a ∈ (runBody env outputFile encoding sampleRate speechRate loudnessRate emotion emotionScale).2) :
    a = Act.sendStartConnection
  ∨ a = Act.waitEvent MsgType.FullServerResponse EventType.ConnectionStarted
  ∨ a = Act.sendStartSession
        (startSessionAudioParams encoding sampleRate speechRate loudnessRate emotion emotionScale)
  ∨ a = Act.waitEvent MsgType.FullServerResponse EventType.SessionStarted
  ∨ a = Act.sendTaskRequest
  ∨ a = Act.sendFinishSession
  ∨ ∃ d, d ≠ [] ∧
      (runBody env outputFile encoding sampleRate speechRate loudnessRate emotion emotionScale).1
        = Except.ok ()
      ∧ a = Act.writeFile outputFile d := by
  unfold runBody at ha ⊢
  split_ifs at ha ⊢ with h1 h2 h3 h4 h5 h6
  · simp_all
  · simp_all
  · simp at ha; tauto
  · simp at ha; tauto
  · simp at ha; tauto
  · simp at ha; tauto
  · cases hr : recvLoop env.inbound [] with
    | error e =>
      simp only [hr] at ha
      simp at ha
      tauto
    | ok audio =>
      by_cases haud : audio = []
      · simp only [hr] at ha
        simp [haud] at ha
        tauto
      · simp only [hr] at ha ⊢
        simp [haud] at ha ⊢
        rcases ha with h | h | h | h | h | h | h <;> tauto

/-- Every action in the cleanup trace is the finish-connection send,
the wait for `ConnectionFinished`, or the close. -/
theorem mem_runCleanup_trace (env : Env) (a : Act) (ha : a ∈ (runCleanup env).2) :
    a = Act.sendFinishConnection
  ∨ a = Act.waitEvent MsgType.FullServerResponse EventType.ConnectionFinished
  ∨ a = Act.closeTransport := by
  unfold runCleanup at ha
  split_ifs at ha <;> simp at ha <;> tauto

/-- Every action of a full run is the connect, a body action, or a
cleanup action. -/
theorem mem_synthesizeRun_trace (env : Env) (seed : Nat)
    (appid accessToken text voiceType resourceId outputFile encoding : String)
    (sampleRate speechRate loudnessRate : Int) (emotion : String) (emotionScale : Int)
    (a : Act)
    (ha : a ∈ (synthesizeRun env seed appid accessToken text voiceType resourceId outputFile
        encoding sampleRate speechRate loudnessRate emotion emotionScale).2) :
    a = Act.connect (connectHeaders appid accessToken resourceId seed)
  ∨ a ∈ (runBody env outputFile encoding sampleRate speechRate loudnessRate emotion emotionScale).2
  ∨ a ∈ (runCleanup env).2 := by
  unfold synthesizeRun at ha
  cases hc : env.connectOk <;> simp [hc] at ha <;> tauto

/-- C7: get_resource_id_for_voice is a pure function of the voice
identifier: every identifier starting with the marker prefix S_
returns the seed-icl family resource id, every other identifier
returns the default seed-tts family resource id; in particular
S_abc123 maps to seed-icl and zh_female_x maps to seed-tts. -/
theorem c7_resource_id_selection (v : String) :
    (startsWithPy v ("S_") = true → get_resource_id_for_voice v = ("seed-icl-2.0"))
  ∧ (startsWithPy v ("S_") = false → get_resource_id_for_voice v = ("seed-tts-2.0"))
  ∧ get_resource_id_for_voice ("S_abc123") = ("seed-icl-2.0")
  ∧ get_resource_id_for_voice ("zh_female_x") = ("seed-tts-2.0") := by
  refine ⟨fun h => ?_, fun h => ?_, ?_, ?_⟩
  · simp [get_resource_id_for_voice, h]
  · simp [get_resource_id_for_voice, h]
  · decide
  · decide

/-- C7 witness: the two concrete voices of the spec scenario. -/
theorem c7_resource_id_selection_witness :
    get_resource_id_for_voice ("S_abc123") = ("seed-icl-2.0")
  ∧ get_resource_id_for_voice ("zh_female_x") = ("seed-tts-2.0") :=
  ⟨(c7_resource_id_selection ("S_abc123")).1 (by decide),
   (c7_resource_id_selection ("zh_female_x")).2.1 (by decide)⟩

/-- C4: the repository's own driver passes a pitch_rate keyword, but
synthesize_to_file accepts no pitch parameter, so the keyword binding
of the driver's call fails (Python raises TypeError) and no pitch
field is ever placed in an outgoing payload. -/
theorem c4_pitch_rate_not_accepted :
    ("pitch_rate") ∈ driver_call_kwargs
  ∧ ("pitch_rate") ∉ synthesize_to_file_params
  ∧ kwargsBind synthesize_to_file_params driver_call_kwargs = false := by
  decide

/-- C5: in the receive loop, a FullServerResponse carrying
SessionFinished stops the loop with the accumulated audio; an
AudioOnlyServer payload is appended to the accumulator in arrival
order; any other (type, event) combination is skipped; and the spec's
scenario stream yields exactly the bytes of b"ABC". -/
theorem c5_receive_loop (p q : List Nat) (rest : List Msg) (acc : List Nat)
    (ev : EventType) (hev : ev ≠ EventType.SessionFinished) :
    recvLoop (Msg.mk MsgType.FullServerResponse EventType.SessionFinished p :: rest) acc
      = Except.ok acc
  ∧ recvLoop (Msg.mk MsgType.AudioOnlyServer ev q :: rest) acc = recvLoop rest (acc ++ q)
  ∧ recvLoop (Msg.mk MsgType.FullServerResponse ev p :: rest) acc = recvLoop rest acc
  ∧ recvLoop (Msg.mk MsgType.FullClientRequest ev p :: rest) acc = recvLoop rest acc
  ∧ recvLoop scenarioMsgs [] = Except.ok [65, 66, 67] := by
  refine ⟨?_, ?_, ?_, ?_, ?_⟩
  · simp [recvLoop]
  · simp [recvLoop]
  · simp [recvLoop, hev]
  · simp [recvLoop]
  · rfl

/-- C5 witness: the general clauses at concrete messages and the
closed scenario. -/
theorem c5_receive_loop_witness :
    recvLoop (Msg.mk MsgType.FullServerResponse EventType.SessionFinished [] :: []) []
      = Except.ok []
  ∧ recvLoop (Msg.mk MsgType.AudioOnlyServer EventType.ConnectionStarted [65] :: []) []
      = recvLoop [] ([] ++ [65])
  ∧ recvLoop (Msg.mk MsgType.FullServerResponse EventType.ConnectionStarted [] :: []) []
      = recvLoop [] []
  ∧ recvLoop (Msg.mk MsgType.FullClientRequest EventType.ConnectionStarted [] :: []) []
      = recvLoop [] []
  ∧ recvLoop scenarioMsgs [] = Except.ok [65, 66, 67] :=
  c5_receive_loop [] [65] [] [] EventType.ConnectionStarted (by decide)

/-- C3: each prosody key of the outgoing StartSession audio_params is
present exactly when its argument differs from its unset sentinel, with
the argument's value; with all four overrides at their sentinels the
payload is exactly the base params and carries none of the prosody
keys; and any StartSession send performed by a run carries exactly this
payload. -/
theorem c3_prosody_defaulting (encoding : String) (sampleRate speechRate loudnessRate : Int)
    (emotion : String) (emotionScale : Int) :
    (getKey ("speech_rate")
        (startSessionAudioParams encoding sampleRate speechRate loudnessRate emotion emotionScale)
      = if speechRate ≠ 0 then some (JVal.jnum speechRate) else none)
  ∧ (getKey ("loudness_rate")
        (startSessionAudioParams encoding sampleRate speechRate loudnessRate emotion emotionScale)
      = if loudnessRate ≠ 0 then some (JVal.jnum loudnessRate) else none)
  ∧ (getKey ("emotion")
        (startSessionAudioParams encoding sampleRate speechRate loudnessRate emotion emotionScale)
      = if emotion ≠ ("neutral") then some (JVal.jstr emotion) else none)
  ∧ (getKey ("emotion_scale")
        (startSessionAudioParams encoding sampleRate speechRate loudnessRate emotion emotionScale)
      = if emotionScale ≠ 0 then some (JVal.jnum emotionScale) else none)
  ∧ (speechRate = 0 → loudnessRate = 0 → emotion = ("neutral") → emotionScale = 0 →
      startSessionAudioParams encoding sampleRate speechRate loudnessRate emotion emotionScale
        = baseAudioParams encoding sampleRate)
  ∧ (∀ (env : Env) (seed : Nat)
        (appid accessToken text voiceType resourceId outputFile : String)
        (ap : List (String × JVal)),
      Act.sendStartSession ap ∈ (synthesizeRun env seed appid accessToken text voiceType
          resourceId outputFile encoding sampleRate speechRate loudnessRate emotion
          emotionScale).2 →
      ap = startSessionAudioParams encoding sampleRate speechRate loudnessRate emotion
            emotionScale) := by
  refine ⟨?_, ?_, ?_, ?_, ?_, ?_⟩
  · unfold startSessionAudioParams baseAudioParams
    split_ifs <;> simp [getKey]
  · unfold startSessionAudioParams baseAudioParams
    split_ifs <;> simp [getKey]
  · unfold startSessionAudioParams baseAudioParams
    split_ifs <;> simp [getKey]
  · unfold startSessionAudioParams baseAudioParams
    split_ifs <;> simp [getKey]
  · intro h1 h2 h3 h4
    simp [startSessionAudioParams, h1, h2, h3, h4]
  · intro env seed appid accessToken text voiceType resourceId outputFile ap hmem
    rcases mem_synthesizeRun_trace env seed appid accessToken text voiceType resourceId
        outputFile encoding sampleRate speechRate loudnessRate emotion emotionScale _ hmem
      with h | h | h
    · simp at h
    · rcases mem_runBody_trace env outputFile encoding sampleRate speechRate loudnessRate
          emotion emotionScale _ h with h2 | h2 | h2 | h2 | h2 | h2 | ⟨d, hd, hb, h2⟩ <;>
        simp_all
    · rcases mem_runCleanup_trace env _ h with h2 | h2 | h2 <;> simp_all

/-- C3 witness: with all prosody overrides at their sentinels the
payload equals the base params, and the speech rate key is absent. -/
theorem c3_prosody_defaulting_witness :
    startSessionAudioParams ("mp3") 24000 0 0 ("neutral") 0 = baseAudioParams ("mp3") 24000
  ∧ getKey ("speech_rate") (startSessionAudioParams ("mp3") 24000 0 0 ("neutral") 0)
      = if (0 : Int) ≠ 0 then some (JVal.jnum 0) else none :=
  ⟨(c3_prosody_defaulting ("mp3") 24000 0 0 ("neutral") 0).2.2.2.2.1 rfl rfl rfl rfl,
   (c3_prosody_defaulting ("mp3") 24000 0 0 ("neutral") 0).1⟩

/-- One text segment of the batch driver together with its injected
transport environment. -/
structure Segment where
  env : Env
  seed : Nat
  text : String
  voiceType : String
  outputFile : String
  speechRate : Int
  loudnessRate : Int
  emotion : String
  emotionScale : Int

/-- One driver invocation of the client
(`process_more_file.process_single_file`, lines 95 and 135-145): the
resource id is selected by the S_ prefix rule and the client call's
result is what the surrounding `try` observes. -/
def segmentRun (appid accessToken : String) (s : Segment) : Except Err Unit :=
  (synthesizeRun s.env s.seed appid accessToken s.text s.voiceType
    (if startsWithPy s.voiceType ("S_") then ("seed-icl-2.0") else ("seed-tts-2.0"))
    s.outputFile ("mp3") 24000 s.speechRate s.loudnessRate s.emotion s.emotionScale).1

/-- Whether a client call succeeded. -/
def isOkResult : Except Err Unit → Bool
  | Except.ok _ => true
  | Except.error _ => false

/-- The driver's per-segment loop (lines 132-149 of
`process_more_file.py`, same shape at lines 168-186 of
`process_text_to_voice.py`): a failing segment is caught, logged and
skipped; a successful segment contributes its output file. -/
def batchDrive (appid accessToken : String) : List Segment → List String
  | [] => []
  | s :: rest =>
    match segmentRun appid accessToken s with
    | Except.ok _ => s.outputFile :: batchDrive appid accessToken rest
    | Except.error _ => batchDrive appid accessToken rest

/-- C1: in every execution that establishes the connection and whose
failure injections are confined to steps 2-7 (the cleanup operations
themselves succeed), the trace ends with send FinishConnection, the
wait for a FullServerResponse carrying ConnectionFinished, and the
transport close, in that order; the finish-connection send occurs
exactly once, before the close, and the close occurs exactly once. -/
theorem c1_cleanup_exactly_once (env : Env) (seed : Nat)
    (appid accessToken text voiceType resourceId outputFile encoding : String)
    (sampleRate speechRate loudnessRate : Int) (emotion : String) (emotionScale : Int)
    (hc : env.connectOk = true) (hf : env.finishConnectionOk = true)
    (hw : env.waitConnectionFinishedOk = true) (hcl : env.closeOk = true) :
    ∃ pre,
      (synthesizeRun env seed appid accessToken text voiceType resourceId outputFile encoding
          sampleRate speechRate loudnessRate emotion emotionScale).2
        = pre ++ [Act.sendFinishConnection,
                  Act.waitEvent MsgType.FullServerResponse EventType.ConnectionFinished,
                  Act.closeTransport]
      ∧ Act.sendFinishConnection ∉ pre
      ∧ Act.closeTransport ∉ pre
      ∧ ((synthesizeRun env seed appid accessToken text voiceType resourceId outputFile encoding
            sampleRate speechRate loudnessRate emotion emotionScale).2).count
          Act.sendFinishConnection = 1
      ∧ ((synthesizeRun env seed appid accessToken text voiceType resourceId outputFile encoding
            sampleRate speechRate loudnessRate emotion emotionScale).2).count
          Act.closeTransport = 1 := by
  have hclean : runCleanup env =
      (Except.ok (),
       [Act.sendFinishConnection,
        Act.waitEvent MsgType.FullServerResponse EventType.ConnectionFinished,
        Act.closeTransport]) := by
    unfold runCleanup
    rw [hf, hw, hcl]
    simp
  have hbody : ∀ a ∈ (runBody env outputFile encoding sampleRate speechRate loudnessRate
      emotion emotionScale).2,
      a ≠ Act.sendFinishConnection ∧ a ≠ Act.closeTransport := by
    intro a ha
    rcases mem_runBody_trace env outputFile encoding sampleRate speechRate loudnessRate
        emotion emotionScale a ha with h | h | h | h | h | h | ⟨d, _, _, h⟩ <;>
      subst h <;> exact ⟨by simp, by simp⟩
  have hpre : ∀ a ∈ (Act.connect (connectHeaders appid accessToken resourceId seed)
      :: (runBody env outputFile encoding sampleRate speechRate loudnessRate emotion
          emotionScale).2),
      a ≠ Act.sendFinishConnection ∧ a ≠ Act.closeTransport := by
    intro a ha
    rcases List.mem_cons.mp ha with h | h
    · subst h; exact ⟨by simp, by simp⟩
    · exact hbody a h
  have htr : (synthesizeRun env seed appid accessToken text voiceType resourceId outputFile
      encoding sampleRate speechRate loudnessRate emotion emotionScale).2
      = (Act.connect (connectHeaders appid accessToken resourceId seed)
          :: (runBody env outputFile encoding sampleRate speechRate loudnessRate emotion
              emotionScale).2)
        ++ [Act.sendFinishConnection,
            Act.waitEvent MsgType.FullServerResponse EventType.ConnectionFinished,
            Act.closeTransport] := by
    unfold synthesizeRun
    rw [hc]
    simp [hclean]
  have hz1 : (Act.connect (connectHeaders appid accessToken resourceId seed)
      :: (runBody env outputFile encoding sampleRate speechRate loudnessRate emotion
          emotionScale).2).count Act.sendFinishConnection = 0 := by
    rw [List.count_eq_zero]
    intro hmem
    exact (hpre _ hmem).1 rfl
  have hz2 : (Act.connect (connectHeaders appid accessToken resourceId seed)
      :: (runBody env outputFile encoding sampleRate speechRate loudnessRate emotion
          emotionScale).2).count Act.closeTransport = 0 := by
    rw [List.count_eq_zero]
    intro hmem
    exact (hpre _ hmem).2 rfl
  refine ⟨_, htr, ?_, ?_, ?_, ?_⟩
  · intro hmem
    exact (hpre _ hmem).1 rfl
  · intro hmem
    exact (hpre _ hmem).2 rfl
  · rw [htr, List.count_append, hz1]
    decide
  · rw [htr, List.count_append, hz2]
    decide

/-- C1 witness: a server error frame injected in step 6 still yields
the cleanup tail exactly once. -/
theorem c1_cleanup_exactly_once_witness :
    ∃ pre,
      (synthesizeRun (envAllOk [errorMsg [7]]) 0 ("appid") ("token") ("hi") ("S_voice")
          ("seed-icl-2.0") ("out.mp3") ("mp3") 24000 0 0 ("neutral") 0).2
        = pre ++ [Act.sendFinishConnection,
                  Act.waitEvent MsgType.FullServerResponse EventType.ConnectionFinished,
                  Act.closeTransport]
      ∧ Act.sendFinishConnection ∉ pre
      ∧ Act.closeTransport ∉ pre
      ∧ ((synthesizeRun (envAllOk [errorMsg [7]]) 0 ("appid") ("token") ("hi") ("S_voice")
            ("seed-icl-2.0") ("out.mp3") ("mp3") 24000 0 0 ("neutral") 0).2).count
          Act.sendFinishConnection = 1
      ∧ ((synthesizeRun (envAllOk [errorMsg [7]]) 0 ("appid") ("token") ("hi") ("S_voice")
            ("seed-icl-2.0") ("out.mp3") ("mp3") 24000 0 0 ("neutral") 0).2).count
          Act.closeTransport = 1 :=
  c1_cleanup_exactly_once (envAllOk [errorMsg [7]]) 0 ("appid") ("token") ("hi") ("S_voice")
    ("seed-icl-2.0") ("out.mp3") ("mp3") 24000 0 0 ("neutral") 0 rfl rfl rfl rfl

/-- C2 counterexample: with the ConnectionStarted wait of step 2
failing and the cleanup's finish_connection send also failing, the call
raises the cleanup error, not the original step-2 error, so cleanup
failures are not swallowed and do mask the original failure. -/
theorem c2_cleanup_masks_error_counterexample :
    (synthesizeRun envWaitFailCleanupFail 0 ("appid") ("token") ("hi") ("S_voice")
        ("seed-icl-2.0") ("out.mp3") ("mp3") 24000 0 0 ("neutral") 0).1
      = Except.error (Err.SendFailed ("finish_connection"))
  ∧ (runBody envWaitFailCleanupFail ("out.mp3") ("mp3") 24000 0 0 ("neutral") 0).1
      = Except.error (Err.WaitFailed EventType.ConnectionStarted)
  ∧ Err.SendFailed ("finish_connection") ≠ Err.WaitFailed EventType.ConnectionStarted := by
  refine ⟨rfl, rfl, by decide⟩

/-- C2 amended: the finally block of synthesize_to_file contains no
exception handling, so whenever the cleanup itself fails, the cleanup
error is what the call raises, replacing any original error from
steps 2-7. -/
theorem c2_cleanup_error_replaces (env : Env) (seed : Nat)
    (appid accessToken text voiceType resourceId outputFile encoding : String)
    (sampleRate speechRate loudnessRate : Int) (emotion : String) (emotionScale : Int)
    (e : Err) (hc : env.connectOk = true)
    (hcl : (runCleanup env).1 = Except.error e) :
    (synthesizeRun env seed appid accessToken text voiceType resourceId outputFile encoding
        sampleRate speechRate loudnessRate emotion emotionScale).1 = Except.error e := by
  unfold synthesizeRun
  rw [hc]
  simp [hcl]

/-- C2 witness: the concrete masking environment. -/
theorem c2_cleanup_error_replaces_witness :
    (synthesizeRun envWaitFailCleanupFail 0 ("appid") ("token") ("hi") ("S_voice")
        ("seed-icl-2.0") ("out.mp3") ("mp3") 24000 0 0 ("neutral") 0).1
      = Except.error (Err.SendFailed ("finish_connection")) :=
  c2_cleanup_error_replaces envWaitFailCleanupFail 0 ("appid") ("token") ("hi") ("S_voice")
    ("seed-icl-2.0") ("out.mp3") ("mp3") 24000 0 0 ("neutral") 0
    (Err.SendFailed ("finish_connection")) rfl rfl

/-- C6: when the receive loop exits on SessionFinished with an empty
accumulated audio buffer (no preceding audio frames) and every other
transport operation succeeds, the call fails with the no-content error
instead of succeeding. -/
theorem c6_empty_audio_fails (env : Env) (seed : Nat)
    (appid accessToken text voiceType resourceId outputFile encoding : String)
    (sampleRate speechRate loudnessRate : Int) (emotion : String) (emotionScale : Int)
    (hc : env.connectOk = true) (h1 : env.startConnectionOk = true)
    (h2 : env.waitConnectionStartedOk = true) (h3 : env.startSessionOk = true)
    (h4 : env.waitSessionStartedOk = true) (h5 : env.taskRequestOk = true)
    (h6 : env.finishSessionOk = true)
    (hr : recvLoop env.inbound [] = Except.ok [])
    (hf : env.finishConnectionOk = true) (hw : env.waitConnectionFinishedOk = true)
    (hcl : env.closeOk = true) :
    (synthesizeRun env seed appid accessToken text voiceType resourceId outputFile encoding
        sampleRate speechRate loudnessRate emotion emotionScale).1
      = Except.error Err.NoAudioData := by
  unfold synthesizeRun runBody runCleanup
  rw [hc, h1, h2, h3, h4, h5, h6, hf, hw, hcl]
  simp [hr]

/-- C6 witness: a server that sends SessionFinished with zero audio
frames. -/
theorem c6_empty_audio_fails_witness :
    (synthesizeRun (envAllOk [ctrlMsg EventType.SessionFinished]) 0 ("appid") ("token") ("hi")
        ("S_voice") ("seed-icl-2.0") ("out.mp3") ("mp3") 24000 0 0 ("neutral") 0).1
      = Except.error Err.NoAudioData :=
  c6_empty_audio_fails (envAllOk [ctrlMsg EventType.SessionFinished]) 0 ("appid") ("token")
    ("hi") ("S_voice") ("seed-icl-2.0") ("out.mp3") ("mp3") 24000 0 0 ("neutral") 0
    rfl rfl rfl rfl rfl rfl rfl rfl rfl rfl rfl

/-- C8: an inbound Error message makes the call abort with a synthesis
failure carrying the server's payload; the trace shows each protocol
send exactly once followed only by the cleanup (no retry and no file
write); and the batch driver turns per-segment failures into skips,
processing every remaining segment. -/
theorem c8_server_error_no_retry (env : Env) (seed : Nat)
    (appid accessToken text voiceType resourceId outputFile encoding : String)
    (sampleRate speechRate loudnessRate : Int) (emotion : String) (emotionScale : Int)
    (p : List Nat)
    (hc : env.connectOk = true) (h1 : env.startConnectionOk = true)
    (h2 : env.waitConnectionStartedOk = true) (h3 : env.startSessionOk = true)
    (h4 : env.waitSessionStartedOk = true) (h5 : env.taskRequestOk = true)
    (h6 : env.finishSessionOk = true)
    (hr : recvLoop env.inbound [] = Except.error (Err.ServerError p))
    (hf : env.finishConnectionOk = true) (hw : env.waitConnectionFinishedOk = true)
    (hcl : env.closeOk = true) :
    (synthesizeRun env seed appid accessToken text voiceType resourceId outputFile encoding
        sampleRate speechRate loudnessRate emotion emotionScale).1
      = Except.error (Err.ServerError p)
  ∧ (synthesizeRun env seed appid accessToken text voiceType resourceId outputFile encoding
        sampleRate speechRate loudnessRate emotion emotionScale).2
      = [Act.connect (connectHeaders appid accessToken resourceId seed),
         Act.sendStartConnection,
         Act.waitEvent MsgType.FullServerResponse EventType.ConnectionStarted,
         Act.sendStartSession
           (startSessionAudioParams encoding sampleRate speechRate loudnessRate emotion
             emotionScale),
         Act.waitEvent MsgType.FullServerResponse EventType.SessionStarted,
         Act.sendTaskRequest,
         Act.sendFinishSession,
         Act.sendFinishConnection,
         Act.waitEvent MsgType.FullServerResponse EventType.ConnectionFinished,
         Act.closeTransport]
  ∧ (∀ (a t : String) (segs : List Segment),
      batchDrive a t segs
        = (segs.filter (fun s => isOkResult (segmentRun a t s))).map Segment.outputFile) := by
  refine ⟨?_, ?_, ?_⟩
  · unfold synthesizeRun runBody runCleanup
    rw [hc, h1, h2, h3, h4, h5, h6, hf, hw, hcl]
    simp [hr]
  · unfold synthesizeRun runBody runCleanup
    rw [hc, h1, h2, h3, h4, h5, h6, hf, hw, hcl]
    simp [hr]
  · intro a t segs
    induction segs with
    | nil => rfl
    | cons s rest ih =>
      unfold batchDrive
      cases hres : segmentRun a t s with
      | ok u => simp [List.filter_cons, hres, isOkResult, ih]
      | error e => simp [List.filter_cons, hres, isOkResult, ih]

/-- C8 witness: a concrete error frame aborts the call, and the driver
over a singleton failing segment produces no output files yet
terminates normally. -/
theorem c8_server_error_no_retry_witness :
    (synthesizeRun (envAllOk [errorMsg [1, 2]]) 0 ("appid") ("token") ("hi") ("S_voice")
        ("seed-icl-2.0") ("out.mp3") ("mp3") 24000 0 0 ("neutral") 0).1
      = Except.error (Err.ServerError [1, 2])
  ∧ batchDrive ("appid") ("token") []
      = (List.filter (fun s => isOkResult (segmentRun ("appid") ("token") s)) []).map
          Segment.outputFile :=
  ⟨(c8_server_error_no_retry (envAllOk [errorMsg [1, 2]]) 0 ("appid") ("token") ("hi")
      ("S_voice") ("seed-icl-2.0") ("out.mp3") ("mp3") 24000 0 0 ("neutral") 0 [1, 2]
      rfl rfl rfl rfl rfl rfl rfl rfl rfl rfl rfl).1,
   (c8_server_error_no_retry (envAllOk [errorMsg [1, 2]]) 0 ("appid") ("token") ("hi")
      ("S_voice") ("seed-icl-2.0") ("out.mp3") ("mp3") 24000 0 0 ("neutral") 0 [1, 2]
      rfl rfl rfl rfl rfl rfl rfl rfl rfl rfl rfl).2.2 ("appid") ("token") []⟩

/-- C9: every run's first trace action, before any protocol message, is
the connect carrying exactly the four required headers (application id,
access credential, resource id, connection-correlation id); the
correlation id is the first uuid drawn by the call, and a subsequent
call drawing from the updated counter presents a different one. -/
theorem c9_connect_headers (env : Env) (seed : Nat)
    (appid accessToken text voiceType resourceId outputFile encoding : String)
    (sampleRate speechRate loudnessRate : Int) (emotion : String) (emotionScale : Int) :
    ((synthesizeRun env seed appid accessToken text voiceType resourceId outputFile encoding
        sampleRate speechRate loudnessRate emotion emotionScale).2).head?
      = some (Act.connect (connectHeaders appid accessToken resourceId seed))
  ∧ (connectHeaders appid accessToken resourceId seed).map Prod.fst
      = [("X-Api-App-Key"), ("X-Api-Access-Key"), ("X-Api-Resource-Id"), ("X-Api-Connect-Id")]
  ∧ getKey ("X-Api-Connect-Id") (connectHeaders appid accessToken resourceId seed)
      = some (HVal.uuid seed)
  ∧ HVal.uuid seed ≠ HVal.uuid (synthNextSeed seed) := by
  refine ⟨?_, ?_, ?_, ?_⟩
  · unfold synthesizeRun
    cases hc : env.connectOk <;> simp [hc]
  · rfl
  · simp [connectHeaders, getKey]
  · simp [synthNextSeed]

/-- C10 counterexample: a call whose body succeeds (audio written) but
whose cleanup fails is a failed call that did create the output file,
so a failure exit does not always leave the file untouched. -/
theorem c10_failed_call_wrote_file_counterexample :
    (synthesizeRun envCleanupFail 0 ("appid") ("token") ("hi") ("S_voice") ("seed-icl-2.0")
        ("out.mp3") ("mp3") 24000 0 0 ("neutral") 0).1
      = Except.error (Err.SendFailed ("finish_connection"))
  ∧ Act.writeFile ("out.mp3") [65]
      ∈ (synthesizeRun envCleanupFail 0 ("appid") ("token") ("hi") ("S_voice") ("seed-icl-2.0")
          ("out.mp3") ("mp3") 24000 0 0 ("neutral") 0).2 := by
  refine ⟨rfl, ?_⟩
  decide

/-- C10 amended: a file write happens only with the call's output path,
only after the non-empty-audio postcondition has passed, and only when
steps 2-7 all succeeded; hence a failure arising in steps 2-7 never
creates or modifies the output file, while a cleanup failure after a
successful body can leave the freshly written file in place. -/
theorem c10_write_only_after_success (env : Env) (seed : Nat)
    (appid accessToken text voiceType resourceId outputFile encoding : String)
    (sampleRate speechRate loudnessRate : Int) (emotion : String) (emotionScale : Int)
    (q : String) (d : List Nat)
    (hmem : Act.writeFile q d ∈ (synthesizeRun env seed appid accessToken text voiceType
        resourceId outputFile encoding sampleRate speechRate loudnessRate emotion
        emotionScale).2) :
    q = outputFile ∧ d ≠ []
  ∧ (runBody env outputFile encoding sampleRate speechRate loudnessRate emotion
      emotionScale).1 = Except.ok () := by
  rcases mem_synthesizeRun_trace env seed appid accessToken text voiceType resourceId
      outputFile encoding sampleRate speechRate loudnessRate emotion emotionScale _ hmem
    with h | h | h
  · simp at h
  · rcases mem_runBody_trace env outputFile encoding sampleRate speechRate loudnessRate
        emotion emotionScale _ h with h2 | h2 | h2 | h2 | h2 | h2 | ⟨dd, hdd, hok, h2⟩ <;>
      simp_all
  · rcases mem_runCleanup_trace env _ h with h2 | h2 | h2 <;> simp_all

/-- C10 witness: the successful run writes its own output path with the
received non-empty audio. -/
theorem c10_write_only_after_success_witness :
    ("out.mp3") = ("out.mp3") ∧ ([65] : List Nat) ≠ []
  ∧ (runBody (envAllOk [audioMsg [65], ctrlMsg EventType.SessionFinished]) ("out.mp3") ("mp3")
      24000 0 0 ("neutral") 0).1 = Except.ok () :=
  c10_write_only_after_success (envAllOk [audioMsg [65], ctrlMsg EventType.SessionFinished]) 0
    ("appid") ("token") ("hi") ("S_voice") ("seed-icl-2.0") ("out.mp3") ("mp3") 24000 0 0
    ("neutral") 0 ("out.mp3") [65] (by decide)
